import Mathlib

/-!
Formal model of the pyWebpower power-analysis library (package `webpower`).

The numerical leaves of the source — scipy distribution functions
(`ncf.sf`, `f.isf`, `nct.sf`, `nct.cdf`, `t.isf`, `t.ppf`, `chi2.ppf`,
`ncx2.cdf`), `math.sqrt`, and the scipy root finders `bisect` / `brentq` —
are external collaborators of the code under study.  They are modelled as
abstract function parameters (a `DistEval` record and `RootFinder`
arguments), while every piece of control flow, formula plumbing,
validation and rounding that lives in this repository is translated
directly from the Python source.  Real-valued quantities are modelled by
rationals so that all definitions are executable.
-/

namespace WebPower

/-- Abstract interface to the scipy distribution evaluators and
`math.sqrt` used by the `webpower` classes.  Argument order follows the
scipy calls in the source: e.g. `ncfSf x dfn dfd nc` models
`ncf.sf(x, dfn, dfd, nc)`. -/
structure DistEval where
  ncfSf : ℚ → ℚ → ℚ → ℚ → ℚ
  fIsf : ℚ → ℚ → ℚ → ℚ
  fPpf : ℚ → ℚ → ℚ → ℚ
  fSf : ℚ → ℚ → ℚ → ℚ
  nctSf : ℚ → ℚ → ℚ → ℚ
  nctCdf : ℚ → ℚ → ℚ → ℚ
  tIsf : ℚ → ℚ → ℚ
  tPpf : ℚ → ℚ → ℚ
  chi2Ppf : ℚ → ℚ → ℚ
  ncx2Cdf : ℚ → ℚ → ℚ → ℚ
  sqrt : ℚ → ℚ

/-- Abstract scalar root finder, modelling `scipy.optimize.bisect` and
`scipy.optimize.brentq`: it receives the function and the two bracket
endpoints. -/
abbrev RootFinder := (ℚ → ℚ) → ℚ → ℚ → ℚ

/-- Whether an `Except` value models a raised Python exception. -/
def isErr : Except String α → Bool
  | .error _ => true
  | .ok _ => false

/-- Maximum of a list of rationals, `none` on the empty list; models
Python `max` over a numpy array. -/
def listMax : List ℚ → Option ℚ
  | [] => none
  | a :: l =>
    match listMax l with
    | none => some a
    | some b => some (max a b)

/-- Minimum of a list of rationals, `none` on the empty list; models
Python `min` over a numpy array. -/
def listMin : List ℚ → Option ℚ
  | [] => none
  | a :: l =>
    match listMin l with
    | none => some a
    | some b => some (min a b)

/-- Model of `np.linspace(low_val, high_val, num)`: `num` evenly spaced
points from `low_val` to `high_val` inclusive. -/
def linspace (lowVal highVal : ℚ) (num : ℕ) : List ℚ :=
  (List.range num).map (fun i : ℕ => lowVal + (highVal - lowVal) * (i : ℚ) / ((num : ℚ) - 1))

/-- Model of `webpower.utils.nuniroot`.  Samples `f` on a uniform grid,
raises when the sampled minimum and maximum have a positive product,
otherwise brackets the root between the grid point with the negative
value closest to zero and the grid point with the positive value closest
to zero and delegates to `scipy.optimize.bisect` (the `bisect`
parameter).  `Except.error` models the Python exceptions: the explicit
`ValueError` of the no-sign-change branch, and the `ValueError` that
Python `max`/`min` raise on an empty sequence when one side of the sign
split is empty. -/
def nuniroot (bisect : RootFinder) (f : ℚ → ℚ) (lowVal highVal : ℚ)
    (maxLength : ℕ) : Except String ℚ :=
  let x := linspace lowVal highVal maxLength
  let fOutput := x.map f
  match listMin fOutput, listMax fOutput with
  | some mn, some mx =>
    if 0 < mn * mx then
      .error "The specified parameters do not yield valid results. Please try to supply a different interval, e.g., using interval=[0, 1], for your parameter."
    else
      match listMax (fOutput.filter (fun v => decide (v < 0))) with
      | none => .error "max() arg is an empty sequence"
      | some low =>
        match listMin (fOutput.filter (fun v => decide (0 < v))) with
        | none => .error "min() arg is an empty sequence"
        | some high =>
          match x.find? (fun xi => decide (f xi = low)),
                x.find? (fun xi => decide (f xi = high)) with
          | some xlo, some xhi => .ok (bisect f xlo xhi)
          | _, _ => .error "index 0 is out of bounds"
  | _, _ => .error "min() arg is an empty sequence"

/-- Python float literal `1e-10`. -/
def eps10 : ℚ := 1 / 10 ^ 10

/-- Python float literal `1e-07`. -/
def eps7 : ℚ := 1 / 10 ^ 7

/-- Python float literal `1e05`. -/
def big5 : ℚ := 10 ^ 5

/-- Python float literal `1e07`. -/
def big7 : ℚ := 10 ^ 7

/-- Python float literal `1e09`. -/
def big9 : ℚ := 10 ^ 9

/-- Python float literal `1e06`. -/
def big6 : ℚ := 10 ^ 6

/-- Python float literal `1e3`. -/
def big3 : ℚ := 10 ^ 3

/-- Model of Python `math.ceil` applied to a rational and stored back in
a numeric field. -/
def ratCeil (q : ℚ) : ℚ := ((⌈q⌉ : ℤ) : ℚ)

/-- Model of Python `str.casefold` as used in this code base (ASCII
lowercasing, matching `String.toLower` but phrased over the character
list so that it evaluates by kernel reduction). -/
def casefold (s : String) : String := String.mk (s.data.map Char.toLower)

/-- Note string chosen in `WpAnovaClass.__init__` (the source tests the
string `"lower"`, not `"less"`, for the third branch). -/
def anovaNote (tt : String) : String :=
  if tt = "overall" then "n is the total sample size (overall)"
  else if tt = "greater" then "n is the total sample size (contrast, greater)"
  else if tt = "lower" then "n is the total sample size (contrast, less)"
  else "n is the total sample size (contrast, two-sided)"

/-- `WpAnovaClass._get_power`: forward power for the one-way ANOVA
design, for a folded `test_type` string `tt`. -/
def anovaGetPower (de : DistEval) (k n f alpha : ℚ) (tt : String) : ℚ :=
  if tt = "overall" then
    de.ncfSf (de.fIsf alpha (k - 1) (n - k)) (k - 1) (n - k) (n * f ^ 2)
  else if tt = "two-sided" then
    de.ncfSf (de.fIsf alpha (k - 1) (n - k)) 1 (n - k) (n * f ^ 2)
  else if tt = "greater" then
    de.nctSf (de.tIsf alpha (n - k)) (n - k) (de.sqrt n * f)
  else
    de.nctCdf (de.tPpf alpha (n - k)) (n - k) (de.sqrt n * f)

/-- `WpAnovaClass._get_groups` residual in the candidate group count `k`.
The source's `"two-sided"` branch reads `self.k`, which is `None`
whenever this residual is used (it is only called when solving for `k`),
so that branch raises `TypeError` in Python; it is modelled at the call
site in `anovaPwrTest` and omitted here. -/
def anovaGetGroups (de : DistEval) (n f alpha power : ℚ) (tt : String) (k : ℚ) : ℚ :=
  if tt = "overall" then
    de.ncfSf (de.fIsf alpha (k - 1) (n - k)) (k - 1) (n - k) (n * f ^ 2) - power
  else if tt = "greater" then
    de.nctSf (de.tIsf alpha (n - k)) (n - k) (de.sqrt n * f) - power
  else
    de.nctCdf (de.tPpf alpha (n - k)) (n - k) (de.sqrt n * f) - power

/-- `WpAnovaClass._get_sample_size` residual in the candidate total
sample size `n`. -/
def anovaGetSampleSize (de : DistEval) (k f alpha power : ℚ) (tt : String) (n : ℚ) : ℚ :=
  if tt = "overall" then
    de.ncfSf (de.fIsf alpha (k - 1) (n - k)) (k - 1) (n - k) (n * f ^ 2) - power
  else if tt = "two-sided" then
    de.ncfSf (de.fIsf alpha (k - 1) (n - k)) 1 (n - k) (n * f ^ 2) - power
  else if tt = "greater" then
    de.nctSf (de.tIsf alpha (n - k)) (n - k) (de.sqrt n * f) - power
  else
    de.nctCdf (de.tPpf alpha (n - k)) (n - k) (de.sqrt n * f) - power

/-- `WpAnovaClass._get_effect_size` residual in the candidate effect
size `f`. -/
def anovaGetEffectSize (de : DistEval) (k n alpha power : ℚ) (tt : String) (f : ℚ) : ℚ :=
  if tt = "overall" then
    de.ncfSf (de.fIsf alpha (k - 1) (n - k)) (k - 1) (n - k) (n * f ^ 2) - power
  else if tt = "two-sided" then
    de.ncfSf (de.fIsf alpha (k - 1) (n - k)) 1 (n - k) (n * f ^ 2) - power
  else if tt = "greater" then
    de.nctSf (de.tIsf alpha (n - k)) (n - k) (de.sqrt n * f) - power
  else
    de.nctCdf (de.tPpf alpha (n - k)) (n - k) (de.sqrt n * f) - power

/-- `WpAnovaClass._get_alpha` residual in the candidate significance
level `alpha`. -/
def anovaGetAlpha (de : DistEval) (k n f power : ℚ) (tt : String) (alpha : ℚ) : ℚ :=
  if tt = "overall" then
    de.ncfSf (de.fIsf alpha (k - 1) (n - k)) (k - 1) (n - k) (n * f ^ 2) - power
  else if tt = "two-sided" then
    de.ncfSf (de.fIsf alpha (k - 1) (n - k)) 1 (n - k) (n * f ^ 2) - power
  else if tt = "greater" then
    de.nctSf (de.tIsf alpha (n - k)) (n - k) (de.sqrt n * f) - power
  else
    de.nctCdf (de.tPpf alpha (n - k)) (n - k) (de.sqrt n * f) - power

/-- Result dictionary of `WpAnovaClass.pwr_test`. -/
structure AnovaResult where
  k : Option ℚ
  n : Option ℚ
  effectSize : Option ℚ
  alpha : Option ℚ
  power : Option ℚ
  method : String
  note : String
  url : String

/-- `WpAnovaClass.pwr_test` (together with the `__init__` casefold of
`test_type`).  The branch structure mirrors the Python
`if self.power is None / elif self.k is None / elif self.n is None /
elif self.f is None / else` chain; arithmetic on a missing (`None`)
field raises `TypeError` in Python and is modelled by `Except.error`.
`bz` models `scipy.optimize.bisect`, `bq` models
`scipy.optimize.brentq`. -/
def anovaPwrTest (de : DistEval) (bz bq : RootFinder)
    (k n f alpha power : Option ℚ) (testTypeRaw : String) : Except String AnovaResult :=
  let tt := casefold testTypeRaw
  let mkRes := fun (k n f alpha power : Option ℚ) =>
    AnovaResult.mk k n f alpha power "Power for One-way ANOVA" (anovaNote tt)
      "http://psychstat.org/anova"
  match power with
  | none =>
    match k, n, f, alpha with
    | some kv, some nv, some fv, some av =>
      .ok (mkRes k n f alpha (some (anovaGetPower de kv nv fv av tt)))
    | _, _, _, _ => .error "TypeError"
  | some pv =>
    match k with
    | none =>
      match n, f, alpha with
      | some nv, some fv, some av =>
        if tt = "two-sided" then .error "TypeError"
        else
          .ok (mkRes (some (ratCeil (bz (anovaGetGroups de nv fv av pv tt) (2 + eps10) 100)))
            n f alpha power)
      | _, _, _ => .error "TypeError"
    | some kv =>
      match n with
      | none =>
        match f, alpha with
        | some fv, some av =>
          .ok (mkRes k
            (some (ratCeil (bq (anovaGetSampleSize de kv fv av pv tt) (2 + kv + eps10) big5)))
            f alpha power)
        | _, _ => .error "TypeError"
      | some nv =>
        match f with
        | none =>
          match alpha with
          | some av =>
            .ok (mkRes k n (some (bz (anovaGetEffectSize de kv nv av pv tt) eps7 big7))
              alpha power)
          | none => .error "TypeError"
        | some fv =>
          .ok (mkRes k n f (some (bq (anovaGetAlpha de kv nv fv pv tt) eps10 (1 - eps10)))
            power)

/-- `WpAnovaBinaryClass._get_power`. -/
def anovaBinGetPower (de : DistEval) (k n V alpha : ℚ) : ℚ :=
  1 - de.ncx2Cdf (de.chi2Ppf (1 - alpha) (k - 1)) (k - 1) (V ^ 2 * n * (k - 1))

/-- `WpAnovaBinaryClass._get_groups` residual in the candidate `k`. -/
def anovaBinGetGroups (de : DistEval) (n V alpha power : ℚ) (k : ℚ) : ℚ :=
  1 - de.ncx2Cdf (de.chi2Ppf (1 - alpha) (k - 1)) (k - 1) (V ^ 2 * n * (k - 1)) - power

/-- `WpAnovaBinaryClass._get_sample_size` residual in the candidate `n`. -/
def anovaBinGetSampleSize (de : DistEval) (k V alpha power : ℚ) (n : ℚ) : ℚ :=
  1 - de.ncx2Cdf (de.chi2Ppf (1 - alpha) (k - 1)) (k - 1) (V ^ 2 * n * (k - 1)) - power

/-- `WpAnovaBinaryClass._get_effect_size` residual in the candidate `V`. -/
def anovaBinGetEffectSize (de : DistEval) (k n alpha power : ℚ) (V : ℚ) : ℚ :=
  1 - de.ncx2Cdf (de.chi2Ppf (1 - alpha) (k - 1)) (k - 1) (V ^ 2 * n * (k - 1)) - power

/-- `WpAnovaBinaryClass._get_alpha` residual in the candidate `alpha`. -/
def anovaBinGetAlpha (de : DistEval) (k n V power : ℚ) (alpha : ℚ) : ℚ :=
  1 - de.ncx2Cdf (de.chi2Ppf (1 - alpha) (k - 1)) (k - 1) (V ^ 2 * n * (k - 1)) - power

/-- The five numeric entries of the result dictionary shared by
`WpAnovaBinaryClass.pwr_test` and `WpAnovaCountClass.pwr_test`. -/
structure BVNums where
  k : Option ℚ
  n : Option ℚ
  effectSize : Option ℚ
  alpha : Option ℚ
  power : Option ℚ

/-- Numeric part of `WpAnovaBinaryClass.pwr_test`.
`WpAnovaCountClass` inherits this code unchanged (its `__init__` only
overrides the `method`/`url`/`note` strings), so both classes compute
these numbers with this one definition. -/
def anovaBVPwrNums (de : DistEval) (bz bq : RootFinder)
    (k n V alpha power : Option ℚ) : Except String BVNums :=
  match power with
  | none =>
    match k, n, V, alpha with
    | some kv, some nv, some Vv, some av =>
      .ok ⟨k, n, V, alpha, some (anovaBinGetPower de kv nv Vv av)⟩
    | _, _, _, _ => .error "TypeError"
  | some pv =>
    match k with
    | none =>
      match n, V, alpha with
      | some nv, some Vv, some av =>
        .ok ⟨some (ratCeil (bz (anovaBinGetGroups de nv Vv av pv) (2 + eps10) 100)),
          n, V, alpha, power⟩
      | _, _, _ => .error "TypeError"
    | some kv =>
      match n with
      | none =>
        match V, alpha with
        | some Vv, some av =>
          .ok ⟨k, some (ratCeil (bq (anovaBinGetSampleSize de kv Vv av pv) (2 + kv + eps10) big5)),
            V, alpha, power⟩
        | _, _ => .error "TypeError"
      | some nv =>
        match V with
        | none =>
          match alpha with
          | some av =>
            .ok ⟨k, n, some (bz (anovaBinGetEffectSize de kv nv av pv) eps7 big7),
              alpha, power⟩
          | none => .error "TypeError"
        | some Vv =>
          .ok ⟨k, n, V, some (bq (anovaBinGetAlpha de kv nv Vv pv) eps10 (1 - eps10)), power⟩

/-- Result dictionary of the binary/count analogous ANOVA classes. -/
structure BVResult where
  k : Option ℚ
  n : Option ℚ
  effectSize : Option ℚ
  alpha : Option ℚ
  power : Option ℚ
  method : String
  note : String
  url : String

/-- `WpAnovaBinaryClass.pwr_test`. -/
def anovaBinaryPwrTest (de : DistEval) (bz bq : RootFinder)
    (k n V alpha power : Option ℚ) : Except String BVResult :=
  (anovaBVPwrNums de bz bq k n V alpha power).map fun r =>
    ⟨r.k, r.n, r.effectSize, r.alpha, r.power,
      "One-way Analogous ANOVA with Binary Data",
      "n is the total sample size",
      "http://psychstat.org/anovabinary"⟩

/-- `WpAnovaCountClass.pwr_test`: the subclass only replaces the
`method` and `url` strings (and re-assigns the same `note` string) in
`__init__` and inherits every computation from
`WpAnovaBinaryClass`. -/
def anovaCountPwrTest (de : DistEval) (bz bq : RootFinder)
    (k n V alpha power : Option ℚ) : Except String BVResult :=
  (anovaBVPwrNums de bz bq k n V alpha power).map fun r =>
    ⟨r.k, r.n, r.effectSize, r.alpha, r.power,
      "One-way Analogous ANOVA with Count Data",
      "n is the total sample size",
      "http://psychstat.org/anovacount"⟩

/-- `t_sample` set in `WpOneT.__init__` for a folded `test_type`. -/
def oneTTSample (tt : String) : ℚ :=
  if tt = "one-sample" then 1 else if tt = "paired" then 1 else 2

/-- `method` prefix string set in `WpOneT.__init__`. -/
def oneTMethodBase (tt : String) : String :=
  if tt = "one-sample" then "One Sample"
  else if tt = "paired" then "Paired Sample"
  else "Two Sample"

/-- `note` set in `WpOneT.__init__` (`None` for the one-sample case). -/
def oneTNote (tt : String) : Option String :=
  if tt = "one-sample" then none
  else if tt = "paired" then some "n is number of *pairs*"
  else some "n is the number in *each* group"

/-- `WpOneT._get_power`: forward power of the one-sample / paired /
two-sample (equal n) t-test, `ts` being `t_sample`. -/
def oneTGetPower (de : DistEval) (n d alpha ts : ℚ) (alt : String) : ℚ :=
  let nu := (n - 1) * ts
  if alt = "two-sided" then
    let qu := de.tIsf (alpha / 2) nu
    de.nctSf qu nu (de.sqrt (n / ts) * d) + de.nctCdf (-qu) nu (de.sqrt (n / ts) * d)
  else if alt = "greater" then
    de.nctSf (de.tIsf alpha nu) nu (de.sqrt (n / ts) * d)
  else
    de.nctCdf (de.tPpf alpha nu) nu (de.sqrt (n / ts) * d)

/-- `WpOneT._get_effect_size` residual in the candidate effect size. -/
def oneTGetEffectSize (de : DistEval) (n alpha power ts : ℚ) (alt : String) (d : ℚ) : ℚ :=
  let nu := (n - 1) * ts
  if alt = "two-sided" then
    let qu := de.tIsf (alpha / 2) nu
    de.nctSf qu nu (de.sqrt (n / ts) * d) + de.nctCdf (-qu) nu (de.sqrt (n / ts) * d) - power
  else if alt = "greater" then
    de.nctSf (de.tIsf alpha nu) nu (de.sqrt (n / ts) * d) - power
  else
    de.nctCdf (de.tPpf alpha nu) nu (de.sqrt (n / ts) * d) - power

/-- `WpOneT._get_n` residual in the candidate sample size. -/
def oneTGetN (de : DistEval) (d alpha power ts : ℚ) (alt : String) (n : ℚ) : ℚ :=
  let nu := (n - 1) * ts
  if alt = "two-sided" then
    let qu := de.tIsf (alpha / 2) nu
    de.nctSf qu nu (de.sqrt (n / ts) * d) + de.nctCdf (-qu) nu (de.sqrt (n / ts) * d) - power
  else if alt = "greater" then
    de.nctSf (de.tIsf alpha nu) nu (de.sqrt (n / ts) * d) - power
  else
    de.nctCdf (de.tPpf alpha nu) nu (de.sqrt (n / ts) * d) - power

/-- `WpOneT._get_alpha` residual in the candidate significance level. -/
def oneTGetAlpha (de : DistEval) (n d power ts : ℚ) (alt : String) (alpha : ℚ) : ℚ :=
  let nu := (n - 1) * ts
  if alt = "two-sided" then
    let qu := de.tIsf (alpha / 2) nu
    de.nctSf qu nu (de.sqrt (n / ts) * d) + de.nctCdf (-qu) nu (de.sqrt (n / ts) * d) - power
  else if alt = "greater" then
    de.nctSf (de.tIsf alpha nu) nu (de.sqrt (n / ts) * d) - power
  else
    de.nctCdf (de.tPpf alpha nu) nu (de.sqrt (n / ts) * d) - power

/-- Result dictionary of `WpOneT.pwr_test`; `note` is omitted from the
Python dictionary when it is `None`, modelled here as an `Option`. -/
structure OneTResult where
  n : Option ℚ
  effectSize : Option ℚ
  alpha : Option ℚ
  power : Option ℚ
  alternative : String
  method : String
  note : Option String
  url : String

/-- `WpOneT.pwr_test` (with the `__init__` casefolds of `test_type` and
`alternative`).  Only `brentq` (`bq`) is used by this class. -/
def oneTPwrTest (de : DistEval) (bq : RootFinder)
    (n d alpha power : Option ℚ) (testTypeRaw alternativeRaw : String) :
    Except String OneTResult :=
  let tt := casefold testTypeRaw
  let alt := casefold alternativeRaw
  let ts := oneTTSample tt
  let mkRes := fun (n d alpha power : Option ℚ) =>
    OneTResult.mk n d alpha power alt (oneTMethodBase tt ++ " t test power calculation")
      (oneTNote tt) "http://psychstat.org/ttest"
  match power with
  | none =>
    match n, d, alpha with
    | some nv, some dv, some av =>
      .ok (mkRes n d alpha (some (oneTGetPower de nv dv av ts alt)))
    | _, _, _ => .error "TypeError"
  | some pv =>
    match d with
    | none =>
      match n, alpha with
      | some nv, some av =>
        let g := oneTGetEffectSize de nv av pv ts alt
        let dv :=
          if alt = "two-sided" then bq g eps7 10
          else if alt = "greater" then bq g (-5) 10
          else bq g (-10) 5
        .ok (mkRes n (some dv) alpha power)
      | _, _ => .error "TypeError"
    | some dv =>
      match n with
      | none =>
        match alpha with
        | some av =>
          .ok (mkRes (some (ratCeil (bq (oneTGetN de dv av pv ts alt) (2 + eps10) big9)))
            d alpha power)
        | none => .error "TypeError"
      | some nv =>
        .ok (mkRes n d (some (bq (oneTGetAlpha de nv dv pv ts alt) eps10 (1 - eps10))) power)

/-- Note string chosen in `WpRMAnovaClass.__init__`. -/
def rmNote (tt : String) : String :=
  if tt = "between" then "Power analysis for between-effect test"
  else if tt = "within" then "Power analysis for within-effect test"
  else "Power analysis for interaction-effect test"

/-- `WpRMAnovaClass._get_power`. -/
def rmGetPower (de : DistEval) (n ng nm f nscor alpha : ℚ) (tt : String) : ℚ :=
  if tt = "between" then
    de.ncfSf (de.fIsf alpha (ng - 1) (n - ng)) (ng - 1) (n - ng) (f ^ 2 * n * nscor)
  else if tt = "within" then
    de.ncfSf (de.fIsf alpha ((nm - 1) * nscor) ((n - ng) * ((nm - 1) * nscor)))
      ((nm - 1) * nscor) ((n - ng) * ((nm - 1) * nscor)) (f ^ 2 * n * nscor)
  else
    de.ncfSf (de.fIsf alpha ((ng - 1) * (nm - 1) * nscor) ((n - ng) * (nm - 1) * nscor))
      ((ng - 1) * (nm - 1) * nscor) ((n - ng) * (nm - 1) * nscor) (f ^ 2 * n * nscor)

/-- `WpRMAnovaClass._get_groups` residual in the candidate `ng`. -/
def rmGetGroups (de : DistEval) (n nm f nscor alpha power : ℚ) (tt : String) (ng : ℚ) : ℚ :=
  rmGetPower de n ng nm f nscor alpha tt - power

/-- `WpRMAnovaClass._get_nm` residual in the candidate `nm` (the
`"between"` branch raises a `ValueError`; modelled at the call site in
`rmPwrTest`). -/
def rmGetNm (de : DistEval) (n ng f nscor alpha power : ℚ) (tt : String) (nm : ℚ) : ℚ :=
  rmGetPower de n ng nm f nscor alpha tt - power

/-- `WpRMAnovaClass._get_sample_size` residual in the candidate `n`. -/
def rmGetSampleSize (de : DistEval) (ng nm f nscor alpha power : ℚ) (tt : String) (n : ℚ) : ℚ :=
  rmGetPower de n ng nm f nscor alpha tt - power

/-- `WpRMAnovaClass._get_effect_size` residual in the candidate `f`. -/
def rmGetEffectSize (de : DistEval) (n ng nm nscor alpha power : ℚ) (tt : String) (f : ℚ) : ℚ :=
  rmGetPower de n ng nm f nscor alpha tt - power

/-- `WpRMAnovaClass._get_alpha` residual in the candidate `alpha`. -/
def rmGetAlpha (de : DistEval) (n ng nm f nscor power : ℚ) (tt : String) (alpha : ℚ) : ℚ :=
  rmGetPower de n ng nm f nscor alpha tt - power

/-- Result dictionary of `WpRMAnovaClass.pwr_test`. -/
structure RMResult where
  n : Option ℚ
  nm : Option ℚ
  effectSize : Option ℚ
  nscor : ℚ
  ng : Option ℚ
  alpha : Option ℚ
  power : Option ℚ
  method : String
  note : String
  url : String

/-- `WpRMAnovaClass.pwr_test`.  The class `__init__` stores `test_type`
without folding it; `wp_rmanova_test` folds it before constructing the
class, so `tt` here is the already-folded string. -/
def rmPwrTest (de : DistEval) (bz bq : RootFinder)
    (n ng nm f : Option ℚ) (nscor : ℚ) (alpha power : Option ℚ) (tt : String) :
    Except String RMResult :=
  let mkRes := fun (n ng nm f alpha power : Option ℚ) =>
    RMResult.mk n nm f nscor ng alpha power "Repeated-measures ANOVA analysis"
      (rmNote tt) "http://psychstat.org/rmanova"
  match power with
  | none =>
    match n, ng, nm, f, alpha with
    | some nv, some ngv, some nmv, some fv, some av =>
      .ok (mkRes n ng nm f alpha (some (rmGetPower de nv ngv nmv fv nscor av tt)))
    | _, _, _, _, _ => .error "TypeError"
  | some pv =>
    match n with
    | none =>
      match ng, nm, f, alpha with
      | some ngv, some nmv, some fv, some av =>
        .ok (mkRes
          (some (ratCeil (bq (rmGetSampleSize de ngv nmv fv nscor av pv tt) 5 big7)))
          ng nm f alpha power)
      | _, _, _, _ => .error "TypeError"
    | some nv =>
      match nm with
      | none =>
        match ng, f, alpha with
        | some ngv, some fv, some av =>
          if tt = "between" then .error "nm is not defined for between-effects"
          else
            .ok (mkRes n ng
              (some (ratCeil (bz (rmGetNm de nv ngv fv nscor av pv tt) (1 + eps10) big5)))
              f alpha power)
        | _, _, _ => .error "TypeError"
      | some nmv =>
        match ng with
        | none =>
          match f, alpha with
          | some fv, some av =>
            .ok (mkRes n
              (some (ratCeil (bz (rmGetGroups de nv nmv fv nscor av pv tt) (1 + eps10) big5)))
              nm f alpha power)
          | _, _ => .error "TypeError"
        | some ngv =>
          match f with
          | none =>
            match alpha with
            | some av =>
              .ok (mkRes n ng nm
                (some (bz (rmGetEffectSize de nv ngv nmv nscor av pv tt) eps7 big7))
                alpha power)
            | none => .error "TypeError"
          | some fv =>
            .ok (mkRes n ng nm f
              (some (bq (rmGetAlpha de nv ngv nmv fv nscor pv tt) eps10 (1 - eps10)))
              power)

/-- `alpha is not None and (alpha < 0 or alpha > 1)` — the range check
applied by the entry points to `alpha` and `power`.  Note the
comparisons are strict: the boundary values `0` and `1` pass. -/
def outside01 : Option ℚ → Bool
  | some a => decide (a < 0) || decide (1 < a)
  | none => false

/-- `v is not None and v < m` — the minimum-count check applied by the
entry points to sample sizes and group counts. -/
def belowMin (m : ℚ) : Option ℚ → Bool
  | some v => decide (v < m)
  | none => false

/-- `wp_anova_test` from `power_tests.py` (the pretty-print side channel
is omitted; it does not affect the returned dictionary).  The source
casefolds `test_type` and passes it to `WpAnovaClass`, whose `__init__`
casefolds again; since casefold is idempotent this is modelled by the
single fold inside `anovaPwrTest`. -/
def wpAnovaTest (de : DistEval) (bz bq : RootFinder)
    (k n f alpha power : Option ℚ) (testType : String) : Except String AnovaResult :=
  if [k, n, f, alpha, power].all Option.isSome then
    .error "One of k, n, f, alpha or power must be None"
  else if 1 < ([k, n, f, alpha, power].filter Option.isNone).length then
    .error "Only one of k, n, f, alpha or power may be None"
  else if outside01 alpha then .error "alpha must be between 0 and 1"
  else if outside01 power then .error "power must be between 0 and 1"
  else if belowMin 1 n then .error "n must be a positive integer"
  else if belowMin 1 k then .error "k must be a positive integer"
  else anovaPwrTest de bz bq k n f alpha power testType

/-- `wp_t1_test` from `power_tests.py` (pretty-print omitted).  As with
`wpAnovaTest`, the double casefold of `test_type`/`alternative` (entry
plus `WpOneT.__init__`) is modelled by the single fold in `oneTPwrTest`,
with the entry folding locally for its membership checks. -/
def wpT1Test (de : DistEval) (bq : RootFinder)
    (n d alpha power : Option ℚ) (testType alternative : String) :
    Except String OneTResult :=
  if [n, d, alpha, power].all Option.isSome then
    .error "One of n, d, alpha or power must be None"
  else if 1 < ([n, d, alpha, power].filter Option.isNone).length then
    .error "Only one of n, d, alpha or power may be None"
  else if belowMin 2 n then .error "Number of observations must be at least 2"
  else if outside01 alpha then .error "alpha must be between 0 and 1"
  else if outside01 power then .error "power must be between 0 and 1"
  else
    let tt := casefold testType
    if !(tt == "two-sample" || tt == "one-sample" || tt == "paired") then
      .error (tt ++ " not supported for a t-test")
    else
      let alt := casefold alternative
      if !(alt == "two-sided" || alt == "greater" || alt == "less") then
        .error (alt ++ " not supported for alternative")
      else oneTPwrTest de bq n d alpha power testType alternative

/-- `wp_rmanova_test` from `power_tests.py` (pretty-print omitted). -/
def wpRmanovaTest (de : DistEval) (bz bq : RootFinder)
    (n ng nm f : Option ℚ) (nscor : ℚ) (alpha power : Option ℚ) (testType : String) :
    Except String RMResult :=
  if [n, ng, nm, f, alpha, power].all Option.isSome then
    .error "One of n, ng, nm, f, alpha and power must be None"
  else if 1 < ([n, ng, nm, f, alpha, power].filter Option.isNone).length then
    .error "Only one of n, ng, nm, f, alpha or power may be None"
  else if outside01 alpha then .error "alpha must be between 0 and 1"
  else if outside01 power then .error "power must be between 0 and 1"
  else if belowMin 1 n then .error "n must be a positive integer"
  else if belowMin 1 ng then .error "ndf must be a positive integer"
  else if belowMin 1 nm then .error "nm must be a positive integer"
  else
    let tt := casefold testType
    if !(tt == "between" || tt == "within" || tt == "interaction") then
      .error (tt ++ " not supported for test_type")
    else rmPwrTest de bz bq n ng nm f nscor alpha power tt

/-- `wp_poisson_test` from `power_tests.py` (pretty-print omitted).
The numerical collaborator `WpPoisson` — whose `pwr_test` nests
scipy quadrature/summation over six predictor families inside the root
finder — is abstracted as the `run` parameter (receiving `n`, `exp0`,
`exp1`, `alpha`, `power`, `alternative`, `family`; the `parameter`
argument of the Python signature is opaque to the validation layer and
is treated as captured by `run`).  The validation layer embedded here is
translated directly from the source. -/
def wpPoissonTest {ρ : Type}
    (run : Option ℚ → ℚ → ℚ → Option ℚ → Option ℚ → String → String → Except String ρ)
    (n : Option ℚ) (exp0 exp1 : ℚ) (alpha power : Option ℚ)
    (alternative family : String) : Except String ρ :=
  if [n, alpha, power].all Option.isSome then
    .error "One of n, alpha or power must be None"
  else if 1 < ([n, alpha, power].filter Option.isNone).length then
    .error "Only one of n, alpha or power may be None"
  else if exp0 ≤ 0 then .error "exp0 cannot be less than or equal to 0"
  else if exp1 ≤ 0 then .error "exp1 cannot be less than or equal to 0"
  else if outside01 alpha then .error "alpha must be between 0 and 1"
  else if outside01 power then .error "power must be between 0 and 1"
  else run n exp0 exp1 alpha power alternative family

/-- `WpMRT2Arm._get_power`: forward power of the two-arm multisite
randomized trial, for folded `test_type` (`tt`) and `alternative`
(`alt`) strings.  The `f` argument is read only in the `"main"` branch
(as in the source, where `self.f` is only used there). -/
def mrt2armGetPower (de : DistEval) (n f J tau00 tau11 sg2 alpha : ℚ)
    (tt alt : String) : ℚ :=
  let df := J - 1
  if tt = "main" then
    let lamda1 := de.sqrt J * f / de.sqrt (4 / n + tau11 / sg2)
    if alt = "two-sided" then
      let t0 := de.tPpf (1 - alpha / 2) df
      de.nctSf t0 df lamda1 + de.nctCdf (-t0) df lamda1
    else
      let t0 := de.tPpf (1 - alpha) df
      de.nctSf t0 df lamda1
  else
    let df2 := J * (n - 2)
    let f0 := de.fPpf (1 - alpha) df df2
    if tt = "site" then de.fSf (f0 / (n * tau00 / sg2 + 1)) df df2
    else de.fSf (f0 / (n * tau11 / sg2 / 4 + 1)) df df2

/-- `WpMRT2Arm._get_n` residual in the candidate `n`, `"main"` test type
only: the source's `"site"`/`"variance"` branches read `self.n`, which
is `None` whenever this residual is used (it is only called when solving
for `n`), so those branches raise `TypeError` in Python; they are
modelled at the call site in `mrt2armPwrTest` and omitted here. -/
def mrt2armGetN (de : DistEval) (f J tau11 sg2 alpha power : ℚ)
    (alt : String) (n : ℚ) : ℚ :=
  let df := J - 1
  let lamda1 := de.sqrt J * f / de.sqrt (4 / n + tau11 / sg2)
  if alt = "two-sided" then
    let t0 := de.tPpf (1 - alpha / 2) df
    de.nctSf t0 df lamda1 + de.nctCdf (-t0) df lamda1 - power
  else
    let t0 := de.tPpf (1 - alpha) df
    de.nctSf t0 df lamda1 - power

/-- `WpMRT2Arm._get_J` residual in the candidate `J`.  The `f` argument
is read only in the `"main"` branch, as in the source. -/
def mrt2armGetJ (de : DistEval) (n f tau00 tau11 sg2 alpha power : ℚ)
    (tt alt : String) (J : ℚ) : ℚ :=
  let df := J - 1
  if tt = "main" then
    let lamda1 := de.sqrt J * f / de.sqrt (4 / n + tau11 / sg2)
    if alt = "two-sided" then
      let t0 := de.tPpf (1 - alpha / 2) df
      de.nctSf t0 df lamda1 + de.nctCdf (-t0) df lamda1 - power
    else
      let t0 := de.tPpf (1 - alpha) df
      de.nctSf t0 df lamda1 - power
  else
    let df2 := J * (n - 2)
    let f0 := de.fPpf (1 - alpha) df df2
    if tt = "site" then de.fSf (f0 / (n * tau00 / sg2 + 1)) df df2 - power
    else de.fSf (f0 / (n * tau11 / sg2 / 4 + 1)) df df2 - power

/-- `WpMRT2Arm._get_f` residual in the candidate effect size `f`,
`"main"` test type only: for `"site"`/`"variance"` the source raises
`NotImplementedError`, modelled at the call site in `mrt2armPwrTest`. -/
def mrt2armGetF (de : DistEval) (n J tau11 sg2 alpha power : ℚ)
    (alt : String) (f : ℚ) : ℚ :=
  let df := J - 1
  let lamda1 := de.sqrt J * f / de.sqrt (4 / n + tau11 / sg2)
  if alt = "two-sided" then
    let t0 := de.tPpf (1 - alpha / 2) df
    de.nctSf t0 df lamda1 + de.nctCdf (-t0) df lamda1 - power
  else
    let t0 := de.tPpf (1 - alpha) df
    de.nctSf t0 df lamda1 - power

/-- Result dictionary of `WpMRT2Arm.pwr_test`. -/
structure MRT2Result where
  J : Option ℚ
  n : Option ℚ
  effectSize : Option ℚ
  tau00 : ℚ
  tau11 : ℚ
  sg2 : ℚ
  power : Option ℚ
  alpha : ℚ
  note : String
  method : String
  url : String

/-- `WpMRT2Arm.pwr_test` (with the `__init__` casefolds of
`alternative` and `test_type`).  The dispatch mirrors the Python
`if self.power is None / elif self.n is None / elif self.J is None /
else` chain: the final `else` runs whenever `power`, `n` and `J` are all
supplied — even when `f` is supplied as well (zero omitted roles) — and
re-solves `f` with `nuniroot` over `[1e-07, 1e07]`.  Arithmetic on a
missing field (`df = self.J - 1` with `J = None`, the `self.n` read in
the non-`"main"` branches of `_get_n`, the unset `f` in the `"main"`
noncentrality) raises `TypeError` in Python, and `_get_f` raises
`NotImplementedError` for `"site"`/`"variance"`; both are modelled by
`Except.error`.  The `bz` parameter is the `scipy.optimize.bisect` that
`nuniroot` delegates to. -/
def mrt2armPwrTest (de : DistEval) (bz : RootFinder)
    (n f J : Option ℚ) (tau00 tau11 sg2 : ℚ) (power : Option ℚ) (alpha : ℚ)
    (alternativeRaw testTypeRaw : String) : Except String MRT2Result :=
  let alt := casefold alternativeRaw
  let tt := casefold testTypeRaw
  let mkRes := fun (n f J power : Option ℚ) =>
    MRT2Result.mk J n f tau00 tau11 sg2 power alpha
      "n is the number of subjects per cluster"
      "Power analysis for Multilevel model Multisite randomized trials with 2 arms"
      "http://psychstat.org/mrt2arm"
  match power with
  | none =>
    match n, J with
    | some nv, some Jv =>
      if tt = "main" then
        match f with
        | some fv =>
          .ok (mkRes n f J
            (some (mrt2armGetPower de nv fv Jv tau00 tau11 sg2 alpha tt alt)))
        | none => .error "TypeError"
      else
        .ok (mkRes n f J
          (some (mrt2armGetPower de nv (f.getD 0) Jv tau00 tau11 sg2 alpha tt alt)))
    | _, _ => .error "TypeError"
  | some pv =>
    match n with
    | none =>
      match J with
      | some Jv =>
        if tt = "main" then
          match f with
          | some fv =>
            (nuniroot bz (mrt2armGetN de fv Jv tau11 sg2 alpha pv alt)
              (3 - eps10) big6 100).map
              (fun r => mkRes (some (ratCeil r)) f J power)
          | none => .error "TypeError"
        else .error "TypeError"
      | none => .error "TypeError"
    | some nv =>
      match J with
      | none =>
        if tt = "main" then
          match f with
          | some fv =>
            (nuniroot bz (mrt2armGetJ de nv fv tau00 tau11 sg2 alpha pv tt alt)
              (1 + eps10) big3 100).map
              (fun r => mkRes n f (some (ratCeil r)) power)
          | none => .error "TypeError"
        else
          (nuniroot bz (mrt2armGetJ de nv (f.getD 0) tau00 tau11 sg2 alpha pv tt alt)
            (1 + eps10) big3 100).map
            (fun r => mkRes n f (some (ratCeil r)) power)
      | some Jv =>
        if tt = "main" then
          (nuniroot bz (mrt2armGetF de nv Jv tau11 sg2 alpha pv alt) eps7 big7 100).map
            (fun r => mkRes n (some r) J power)
        else .error "NotImplementedError: f not needed for site or variance tests"

/-- `wp_mrt2arm_test` from `power_tests.py` (pretty-print omitted).
Unlike the other entry points, it performs no validation whatsoever —
no omitted-role count, no range or minimum checks, no `test_type` or
`alternative` check — and immediately constructs `WpMRT2Arm` and calls
its `pwr_test`. -/
def wpMrt2armTest (de : DistEval) (bz : RootFinder)
    (n f J : Option ℚ) (tau00 tau11 sg2 : ℚ) (power : Option ℚ) (alpha : ℚ)
    (alternative testType : String) : Except String MRT2Result :=
  mrt2armPwrTest de bz n f J tau00 tau11 sg2 power alpha alternative testType

/-- A concrete distribution evaluator used to instantiate the
universally quantified theorems below on closed inputs: every
distribution call returns `1/2`, every quantile returns `0`, and `sqrt`
is the identity. -/
def deW : DistEval where
  ncfSf := fun _ _ _ _ => 1 / 2
  fIsf := fun _ _ _ => 0
  fPpf := fun _ _ _ => 0
  fSf := fun _ _ _ => 1 / 2
  nctSf := fun _ _ _ => 1 / 2
  nctCdf := fun _ _ _ => 1 / 2
  tIsf := fun _ _ => 0
  tPpf := fun _ _ => 0
  chi2Ppf := fun _ _ => 0
  ncx2Cdf := fun _ _ _ => 1 / 2
  sqrt := fun q => q

/-- A second concrete distribution evaluator: `nctSf` passes its
noncentrality through, the other calls return `0`, and `sqrt` is the
identity.  It makes the MRT-2-arm effect-size residual a non-constant
affine function of the candidate, so that its grid samples change sign
and `nuniroot` succeeds. -/
def deX : DistEval where
  ncfSf := fun _ _ _ _ => 0
  fIsf := fun _ _ _ => 0
  fPpf := fun _ _ _ => 0
  fSf := fun _ _ _ => 0
  nctSf := fun _ _ nc => nc
  nctCdf := fun _ _ _ => 0
  tIsf := fun _ _ => 0
  tPpf := fun _ _ => 0
  chi2Ppf := fun _ _ => 0
  ncx2Cdf := fun _ _ _ => 0
  sqrt := fun q => q

/-- A concrete root finder (constant value 50) standing in for
`scipy.optimize.bisect` when instantiating theorems on closed inputs. -/
def bzW : RootFinder := fun _ _ _ => 50

/-- A concrete root finder (constant value 50) standing in for
`scipy.optimize.brentq` when instantiating theorems on closed inputs. -/
def bqW : RootFinder := fun _ _ _ => 50

/-! ## Helper lemmas -/

@[simp] theorem isErr_error (msg : String) : isErr (α := α) (.error msg) = true := rfl

@[simp] theorem isErr_ok (a : α) : isErr (.ok a) = false := rfl

theorem listMax_eq_none : listMax l = none ↔ l = [] := by
  cases l with
  | nil => simp [listMax]
  | cons a l =>
    simp only [listMax]
    cases listMax l <;> simp

theorem listMin_eq_none : listMin l = none ↔ l = [] := by
  cases l with
  | nil => simp [listMin]
  | cons a l =>
    simp only [listMin]
    cases listMin l <;> simp

theorem listMax_mem {l : List ℚ} {m : ℚ} (h : listMax l = some m) : m ∈ l := by
  induction l generalizing m with
  | nil => simp [listMax] at h
  | cons a l ih =>
    simp only [listMax] at h
    cases hl : listMax l with
    | none =>
      rw [hl] at h
      simp only [Option.some.injEq] at h
      simp [← h]
    | some b =>
      rw [hl] at h
      simp only [Option.some.injEq] at h
      subst h
      rcases max_choice a b with hc | hc <;> rw [hc]
      · exact List.mem_cons_self a l
      · exact List.mem_cons_of_mem a (ih hl)

theorem listMin_mem {l : List ℚ} {m : ℚ} (h : listMin l = some m) : m ∈ l := by
  induction l generalizing m with
  | nil => simp [listMin] at h
  | cons a l ih =>
    simp only [listMin] at h
    cases hl : listMin l with
    | none =>
      rw [hl] at h
      simp only [Option.some.injEq] at h
      simp [← h]
    | some b =>
      rw [hl] at h
      simp only [Option.some.injEq] at h
      subst h
      rcases min_choice a b with hc | hc <;> rw [hc]
      · exact List.mem_cons_self a l
      · exact List.mem_cons_of_mem a (ih hl)

theorem le_listMax {l : List ℚ} {x m : ℚ} (hx : x ∈ l) (h : listMax l = some m) :
    x ≤ m := by
  induction l generalizing m with
  | nil => simp at hx
  | cons a l ih =>
    simp only [listMax] at h
    cases hl : listMax l with
    | none =>
      rw [hl] at h
      simp only [Option.some.injEq] at h
      rcases List.mem_cons.mp hx with rfl | hx
      · exact le_of_eq h
      · exact absurd (listMax_eq_none.mp hl ▸ hx) (List.not_mem_nil x)
    | some b =>
      rw [hl] at h
      simp only [Option.some.injEq] at h
      subst h
      rcases List.mem_cons.mp hx with rfl | hx
      · exact le_max_left x b
      · exact le_trans (ih hx hl) (le_max_right a b)

theorem listMin_le {l : List ℚ} {x m : ℚ} (hx : x ∈ l) (h : listMin l = some m) :
    m ≤ x := by
  induction l generalizing m with
  | nil => simp at hx
  | cons a l ih =>
    simp only [listMin] at h
    cases hl : listMin l with
    | none =>
      rw [hl] at h
      simp only [Option.some.injEq] at h
      rcases List.mem_cons.mp hx with rfl | hx
      · exact le_of_eq h.symm
      · exact absurd (listMin_eq_none.mp hl ▸ hx) (List.not_mem_nil x)
    | some b =>
      rw [hl] at h
      simp only [Option.some.injEq] at h
      subst h
      rcases List.mem_cons.mp hx with rfl | hx
      · exact min_le_left x b
      · exact le_trans (min_le_right a b) (ih hx hl)

theorem find?_isSome_of_mem {α : Type} {l : List α} {x : α} {p : α → Bool}
    (hx : x ∈ l) (hp : p x = true) :
    ∃ y, l.find? p = some y := by
  induction l with
  | nil => simp at hx
  | cons a l ih =>
    by_cases ha : p a = true
    · exact ⟨a, List.find?_cons_of_pos l ha⟩
    · rw [List.find?_cons_of_neg l (by simpa using ha)]
      rcases List.mem_cons.mp hx with rfl | hx
      · exact absurd hp ha
      · exact ih hx

@[simp] theorem length_linspace (lowVal highVal : ℚ) (num : ℕ) :
    (linspace lowVal highVal num).length = num := by
  unfold linspace
  rw [List.length_map, List.length_range]


theorem listMax_isSome_of_mem {l : List ℚ} {v : ℚ} (hv : v ∈ l) :
    ∃ m, listMax l = some m := by
  cases h : listMax l with
  | none => exact absurd (listMax_eq_none.mp h ▸ hv) (List.not_mem_nil v)
  | some m => exact ⟨m, rfl⟩

theorem listMin_isSome_of_mem {l : List ℚ} {v : ℚ} (hv : v ∈ l) :
    ∃ m, listMin l = some m := by
  cases h : listMin l with
  | none => exact absurd (listMin_eq_none.mp h ▸ hv) (List.not_mem_nil v)
  | some m => exact ⟨m, rfl⟩

theorem anovaGetSampleSize_eq (de : DistEval) (k f a p : ℚ) (tt : String) (x : ℚ) :
    anovaGetSampleSize de k f a p tt x = anovaGetPower de k x f a tt - p := by
  simp only [anovaGetSampleSize, anovaGetPower]
  split_ifs <;> rfl

theorem anovaGetGroups_eq (de : DistEval) (n f a p : ℚ) (tt : String) (x : ℚ)
    (htt : tt ≠ "two-sided") :
    anovaGetGroups de n f a p tt x = anovaGetPower de x n f a tt - p := by
  simp only [anovaGetGroups, anovaGetPower]
  split_ifs <;> rfl

theorem oneTGetN_eq (de : DistEval) (d a p ts : ℚ) (alt : String) (x : ℚ) :
    oneTGetN de d a p ts alt x = oneTGetPower de x d a ts alt - p := by
  simp only [oneTGetN, oneTGetPower]
  split_ifs <;> rfl

theorem le_ratCeil (q : ℚ) : q ≤ ratCeil q := by
  unfold ratCeil
  exact_mod_cast Int.le_ceil q

theorem isErr_map (h : α → β) (e : Except String α) : isErr (e.map h) = isErr e := by
  cases e <;> rfl

theorem isErr_nuniroot_eq_false_of_sign_change (bz : RootFinder) (g : ℚ → ℚ)
    (lowVal highVal : ℚ) (maxLength : ℕ)
    (hneg : ∃ v ∈ (linspace lowVal highVal maxLength).map g, v < 0)
    (hpos : ∃ v ∈ (linspace lowVal highVal maxLength).map g, 0 < v) :
    isErr (nuniroot bz g lowVal highVal maxLength) = false := by
  obtain ⟨vn, hvnm, hvn⟩ := hneg
  obtain ⟨vp, hvpm, hvp⟩ := hpos
  have hvnf : vn ∈ ((linspace lowVal highVal maxLength).map g).filter
      (fun v => decide (v < 0)) := List.mem_filter.mpr ⟨hvnm, by simpa using hvn⟩
  have hvpf : vp ∈ ((linspace lowVal highVal maxLength).map g).filter
      (fun v => decide (0 < v)) := List.mem_filter.mpr ⟨hvpm, by simpa using hvp⟩
  obtain ⟨lo, hlo⟩ := listMax_isSome_of_mem hvnf
  obtain ⟨hi, hhi⟩ := listMin_isSome_of_mem hvpf
  have hlof := List.mem_filter.mp (listMax_mem hlo)
  have hhif := List.mem_filter.mp (listMin_mem hhi)
  obtain ⟨xl, hxlm, hxl⟩ := List.mem_map.mp hlof.1
  obtain ⟨xh, hxhm, hxh⟩ := List.mem_map.mp hhif.1
  obtain ⟨xlo, hfindlo⟩ := find?_isSome_of_mem (p := fun xi => decide (g xi = lo))
    hxlm (by simpa using hxl)
  obtain ⟨xhi, hfindhi⟩ := find?_isSome_of_mem (p := fun xi => decide (g xi = hi))
    hxhm (by simpa using hxh)
  obtain ⟨mn, hmn⟩ := listMin_isSome_of_mem hvnm
  obtain ⟨mx, hmx⟩ := listMax_isSome_of_mem hvnm
  have hprod : ¬ (0 < mn * mx) := by
    have h1 : mn < 0 := lt_of_le_of_lt (listMin_le hvnm hmn) hvn
    have h2 : 0 < mx := lt_of_lt_of_le hvp (le_listMax hvpm hmx)
    exact not_lt.mpr (le_of_lt (mul_neg_of_neg_of_pos h1 h2))
  simp [nuniroot, hmn, hmx, hprod, hlo, hhi, hfindlo, hfindhi]

/-! ## Claim theorems -/

/-- Claim C3: for every function `g` and every interval, `nuniroot`
samples `g` at `max_length` evenly spaced points across the interval,
and whenever the sampled values are all non-negative or all non-positive
(no sign change among the samples, including the case of a sampled value
equal to zero) the call raises an error: either the explicit
no-valid-result `ValueError`, or — when a sampled value is exactly zero,
so that the min·max product test does not fire — the `ValueError` that
Python `max`/`min` raise on the empty side of the sign split. -/
theorem nuniroot_no_sign_change_raises (bz : RootFinder) (g : ℚ → ℚ)
    (lowVal highVal : ℚ) (maxLength : ℕ)
    (hsign : (∀ v ∈ (linspace lowVal highVal maxLength).map g, 0 ≤ v) ∨
             (∀ v ∈ (linspace lowVal highVal maxLength).map g, v ≤ 0)) :
    (linspace lowVal highVal maxLength).length = maxLength ∧
    isErr (nuniroot bz g lowVal highVal maxLength) = true := by
  refine ⟨length_linspace lowVal highVal maxLength, ?_⟩
  cases hmn : listMin ((linspace lowVal highVal maxLength).map g) with
  | none =>
    have hmx : listMax ((linspace lowVal highVal maxLength).map g) = none :=
      listMax_eq_none.mpr (listMin_eq_none.mp hmn)
    simp [nuniroot, hmn, hmx]
  | some mn =>
    cases hmx : listMax ((linspace lowVal highVal maxLength).map g) with
    | none =>
      rw [listMax_eq_none.mp hmx] at hmn
      simp [listMin] at hmn
    | some mx =>
      by_cases hc : 0 < mn * mx
      · simp [nuniroot, hmn, hmx, hc]
      · rcases hsign with hall | hall
        · have hneg : ((linspace lowVal highVal maxLength).map g).filter
              (fun v => decide (v < 0)) = [] :=
            List.filter_eq_nil_iff.mpr (fun v hv => by simpa using not_lt.mpr (hall v hv))
          simp [nuniroot, hmn, hmx, hc, hneg, listMax]
        · have hpos : ((linspace lowVal highVal maxLength).map g).filter
              (fun v => decide (0 < v)) = [] :=
            List.filter_eq_nil_iff.mpr (fun v hv => by simpa using not_lt.mpr (hall v hv))
          cases hng : listMax (((linspace lowVal highVal maxLength).map g).filter
              (fun v => decide (v < 0))) with
          | none => simp [nuniroot, hmn, hmx, hc, hng]
          | some lo => simp [nuniroot, hmn, hmx, hc, hng, hpos, listMin]

/-- Closed instance of `nuniroot_no_sign_change_raises`: the constant
function `1` on five grid points over `[0, 1]`. -/
theorem nuniroot_no_sign_change_raises_witness :
    (linspace 0 1 5).length = 5 ∧
    isErr (nuniroot bzW (fun _ => 1) 0 1 5) = true :=
  nuniroot_no_sign_change_raises bzW (fun _ => 1) 0 1 5
    (Or.inl (by
      have h5 : linspace 0 1 5 = [0, 1/4, 1/2, 3/4, 1] := by
        simp [linspace, List.range_succ]; norm_num
      rw [h5]; norm_num))

/-- Claim C4: when the sampled grid values do change sign, `nuniroot`
selects the sampled value closest to zero from below (`lo`, the maximum
of the negative samples) and from above (`hi`, the minimum of the
positive samples), takes the grid points at which those values are
attained (`xlo`, `xhi`, the first such grid point in each case), and
returns the result of the continuous bisection root finder applied to
`g` on the bracket `[xlo, xhi]`. -/
theorem nuniroot_sign_change_brackets_bisect (bz : RootFinder) (g : ℚ → ℚ)
    (lowVal highVal : ℚ) (maxLength : ℕ)
    (hneg : ∃ v ∈ (linspace lowVal highVal maxLength).map g, v < 0)
    (hpos : ∃ v ∈ (linspace lowVal highVal maxLength).map g, 0 < v) :
    ∃ lo hi xlo xhi,
      listMax (((linspace lowVal highVal maxLength).map g).filter
        (fun v => decide (v < 0))) = some lo ∧
      listMin (((linspace lowVal highVal maxLength).map g).filter
        (fun v => decide (0 < v))) = some hi ∧
      (linspace lowVal highVal maxLength).find? (fun xi => decide (g xi = lo)) = some xlo ∧
      (linspace lowVal highVal maxLength).find? (fun xi => decide (g xi = hi)) = some xhi ∧
      nuniroot bz g lowVal highVal maxLength = .ok (bz g xlo xhi) := by
  obtain ⟨vn, hvnm, hvn⟩ := hneg
  obtain ⟨vp, hvpm, hvp⟩ := hpos
  have hvnf : vn ∈ ((linspace lowVal highVal maxLength).map g).filter
      (fun v => decide (v < 0)) := List.mem_filter.mpr ⟨hvnm, by simpa using hvn⟩
  have hvpf : vp ∈ ((linspace lowVal highVal maxLength).map g).filter
      (fun v => decide (0 < v)) := List.mem_filter.mpr ⟨hvpm, by simpa using hvp⟩
  obtain ⟨lo, hlo⟩ := listMax_isSome_of_mem hvnf
  obtain ⟨hi, hhi⟩ := listMin_isSome_of_mem hvpf
  have hlof := List.mem_filter.mp (listMax_mem hlo)
  have hhif := List.mem_filter.mp (listMin_mem hhi)
  have hlo0 : lo < 0 := by simpa using hlof.2
  have hhi0 : 0 < hi := by simpa using hhif.2
  obtain ⟨xl, hxlm, hxl⟩ := List.mem_map.mp hlof.1
  obtain ⟨xh, hxhm, hxh⟩ := List.mem_map.mp hhif.1
  obtain ⟨xlo, hfindlo⟩ := find?_isSome_of_mem (p := fun xi => decide (g xi = lo))
    hxlm (by simpa using hxl)
  obtain ⟨xhi, hfindhi⟩ := find?_isSome_of_mem (p := fun xi => decide (g xi = hi))
    hxhm (by simpa using hxh)
  obtain ⟨mn, hmn⟩ := listMin_isSome_of_mem hvnm
  obtain ⟨mx, hmx⟩ := listMax_isSome_of_mem hvnm
  have hmnlo : mn ≤ vn := listMin_le hvnm hmn
  have hmxhi : vp ≤ mx := le_listMax hvpm hmx
  have hprod : ¬ (0 < mn * mx) := by
    have h1 : mn < 0 := lt_of_le_of_lt hmnlo hvn
    have h2 : 0 < mx := lt_of_lt_of_le hvp hmxhi
    exact not_lt.mpr (le_of_lt (mul_neg_of_neg_of_pos h1 h2))
  exact ⟨lo, hi, xlo, xhi, hlo, hhi, hfindlo, hfindhi, by
    simp [nuniroot, hmn, hmx, hprod, hlo, hhi, hfindlo, hfindhi]⟩

/-- Closed instance of `nuniroot_sign_change_brackets_bisect`: the
function `x - 1/2` on five grid points over `[0, 1]`. -/
theorem nuniroot_sign_change_brackets_bisect_witness :
    ∃ lo hi xlo xhi,
      listMax (((linspace 0 1 5).map (fun x => x - 1 / 2)).filter
        (fun v => decide (v < 0))) = some lo ∧
      listMin (((linspace 0 1 5).map (fun x => x - 1 / 2)).filter
        (fun v => decide (0 < v))) = some hi ∧
      (linspace 0 1 5).find? (fun xi => decide (xi - 1 / 2 = lo)) = some xlo ∧
      (linspace 0 1 5).find? (fun xi => decide (xi - 1 / 2 = hi)) = some xhi ∧
      nuniroot bzW (fun x => x - 1 / 2) 0 1 5 = .ok (bzW (fun x => x - 1 / 2) xlo xhi) :=
  nuniroot_sign_change_brackets_bisect bzW (fun x => x - 1 / 2) 0 1 5
    (by
      have h5 : linspace 0 1 5 = [0, 1/4, 1/2, 3/4, 1] := by
        simp [linspace, List.range_succ]; norm_num
      rw [h5]; norm_num)
    (by
      have h5 : linspace 0 1 5 = [0, 1/4, 1/2, 3/4, 1] := by
        simp [linspace, List.range_succ]; norm_num
      rw [h5]; norm_num)

/-- Claim C5: in the forward (power-computing) case of the one-way ANOVA
design with `k`, `n`, `f`, `alpha` all supplied, the computed power is:
for `test_type = "overall"`, the noncentral-F survival function at the
central-F inverse-survival (critical) value with degrees of freedom
`(k-1, n-k)` and noncentrality `n·f²`; for the directional contrasts
`"greater"` and `"less"`, a noncentral-t expression with `n-k` degrees
of freedom and noncentrality `√n·f` (survival at the t critical value
for `"greater"`, CDF at the t quantile for `"less"`). -/
theorem anova_forward_power_formulas (de : DistEval) (bz bq : RootFinder) (k n f a : ℚ) :
    (anovaPwrTest de bz bq (some k) (some n) (some f) (some a) none "overall").map
        (fun r => r.power)
      = .ok (some (de.ncfSf (de.fIsf a (k - 1) (n - k)) (k - 1) (n - k) (n * f ^ 2))) ∧
    (anovaPwrTest de bz bq (some k) (some n) (some f) (some a) none "greater").map
        (fun r => r.power)
      = .ok (some (de.nctSf (de.tIsf a (n - k)) (n - k) (de.sqrt n * f))) ∧
    (anovaPwrTest de bz bq (some k) (some n) (some f) (some a) none "less").map
        (fun r => r.power)
      = .ok (some (de.nctCdf (de.tPpf a (n - k)) (n - k) (de.sqrt n * f))) :=
  ⟨rfl, rfl, rfl⟩

/-- Claim C1: when the solved-for role is an integer count, the value in
the result record is the ceiling of the continuous root found by the
root finder, and evaluating the forward power function at that returned
value yields power at least the requested power.  Formalised for the
roles cited by the claim — the `n` and `k` branches of
`WpAnovaClass.pwr_test` and the `n` branch of `WpOneT.pwr_test` — under
the two premises the claim rests on: the root finder returns an exact
root of the residual, and the forward power function is monotone
non-decreasing in the solved count (the specification's documented
precondition on every design's power function). -/
theorem integer_roles_ceiling_power :
    (∀ (de : DistEval) (bz bq : RootFinder) (kv fv av pv : ℚ) (tt : String),
      anovaGetSampleSize de kv fv av pv (casefold tt)
          (bq (anovaGetSampleSize de kv fv av pv (casefold tt)) (2 + kv + eps10) big5) = 0 →
      Monotone (fun x => anovaGetPower de kv x fv av (casefold tt)) →
      (anovaPwrTest de bz bq (some kv) none (some fv) (some av) (some pv) tt).map
          (fun r => r.n)
        = .ok (some (ratCeil (bq (anovaGetSampleSize de kv fv av pv (casefold tt))
            (2 + kv + eps10) big5))) ∧
      pv ≤ anovaGetPower de kv
        (ratCeil (bq (anovaGetSampleSize de kv fv av pv (casefold tt)) (2 + kv + eps10) big5))
        fv av (casefold tt)) ∧
    (∀ (de : DistEval) (bz bq : RootFinder) (nv fv av pv : ℚ) (tt : String),
      casefold tt ≠ "two-sided" →
      anovaGetGroups de nv fv av pv (casefold tt)
          (bz (anovaGetGroups de nv fv av pv (casefold tt)) (2 + eps10) 100) = 0 →
      Monotone (fun x => anovaGetPower de x nv fv av (casefold tt)) →
      (anovaPwrTest de bz bq none (some nv) (some fv) (some av) (some pv) tt).map
          (fun r => r.k)
        = .ok (some (ratCeil (bz (anovaGetGroups de nv fv av pv (casefold tt))
            (2 + eps10) 100))) ∧
      pv ≤ anovaGetPower de
        (ratCeil (bz (anovaGetGroups de nv fv av pv (casefold tt)) (2 + eps10) 100))
        nv fv av (casefold tt)) ∧
    (∀ (de : DistEval) (bq : RootFinder) (dv av pv : ℚ) (tt alt : String),
      oneTGetN de dv av pv (oneTTSample (casefold tt)) (casefold alt)
          (bq (oneTGetN de dv av pv (oneTTSample (casefold tt)) (casefold alt))
            (2 + eps10) big9) = 0 →
      Monotone (fun x => oneTGetPower de x dv av (oneTTSample (casefold tt)) (casefold alt)) →
      (oneTPwrTest de bq none (some dv) (some av) (some pv) tt alt).map (fun r => r.n)
        = .ok (some (ratCeil (bq (oneTGetN de dv av pv (oneTTSample (casefold tt))
            (casefold alt)) (2 + eps10) big9))) ∧
      pv ≤ oneTGetPower de
        (ratCeil (bq (oneTGetN de dv av pv (oneTTSample (casefold tt)) (casefold alt))
          (2 + eps10) big9))
        dv av (oneTTSample (casefold tt)) (casefold alt)) := by
  refine ⟨?_, ?_, ?_⟩
  · intro de bz bq kv fv av pv tt hroot hmono
    refine ⟨rfl, ?_⟩
    have h1 : anovaGetPower de kv
        (bq (anovaGetSampleSize de kv fv av pv (casefold tt)) (2 + kv + eps10) big5)
        fv av (casefold tt) = pv := by
      rw [anovaGetSampleSize_eq] at hroot
      linarith
    calc pv = _ := h1.symm
      _ ≤ _ := hmono (le_ratCeil _)
  · intro de bz bq nv fv av pv tt htt hroot hmono
    constructor
    · simp only [anovaPwrTest]
      rw [if_neg htt]
      rfl
    · have h1 : anovaGetPower de
          (bz (anovaGetGroups de nv fv av pv (casefold tt)) (2 + eps10) 100)
          nv fv av (casefold tt) = pv := by
        rw [anovaGetGroups_eq de nv fv av pv (casefold tt) _ htt] at hroot
        linarith
      calc pv = _ := h1.symm
        _ ≤ _ := hmono (le_ratCeil _)
  · intro de bq dv av pv tt alt hroot hmono
    refine ⟨rfl, ?_⟩
    have h1 : oneTGetPower de
        (bq (oneTGetN de dv av pv (oneTTSample (casefold tt)) (casefold alt)) (2 + eps10) big9)
        dv av (oneTTSample (casefold tt)) (casefold alt) = pv := by
      rw [oneTGetN_eq] at hroot
      linarith
    calc pv = _ := h1.symm
      _ ≤ _ := hmono (le_ratCeil _)

/-- Closed instance of `integer_roles_ceiling_power` (first conjunct):
solving the one-way ANOVA design for `n` with the concrete collaborators
`deW`/`bzW`/`bqW`, where the continuous root is `50` and the requested
power is `1/2`. -/
theorem integer_roles_ceiling_power_witness :
    (anovaPwrTest deW bzW bqW (some 4) none (some 1) (some (1 / 20)) (some (1 / 2))
        "overall").map (fun r => r.n)
      = .ok (some (ratCeil (bqW (anovaGetSampleSize deW 4 1 (1 / 20) (1 / 2)
          (casefold "overall")) (2 + 4 + eps10) big5))) ∧
    (1 / 2 : ℚ) ≤ anovaGetPower deW 4
      (ratCeil (bqW (anovaGetSampleSize deW 4 1 (1 / 20) (1 / 2) (casefold "overall"))
        (2 + 4 + eps10) big5))
      1 (1 / 20) (casefold "overall") :=
  integer_roles_ceiling_power.1 deW bzW bqW 4 1 (1 / 20) (1 / 2) "overall"
    (by
      have hcf : casefold "overall" = "overall" := rfl
      rw [hcf]
      simp [anovaGetSampleSize, deW, bqW])
    (fun _ _ _ => le_of_eq rfl)

/-- Counterexample to claim C2 as stated: `wp_mrt2arm_test` performs no
omitted-role validation.  With zero solvable roles omitted (`n = 20`,
`f = 1/2`, `J = 10`, `power = 4/5` all supplied) the call does not
raise: `WpMRT2Arm.pwr_test` falls into its final `else` branch and
silently re-solves `f` through `nuniroot`, returning a result record
(here with collaborators under which the effect-size residual changes
sign on the sampling grid, as scipy's do at these inputs). -/
theorem mrt2arm_zero_omitted_roles_computes :
    isErr (wpMrt2armTest deX bzW (some 20) (some (1 / 2)) (some 10) 1 1 1
      (some (4 / 5)) (1 / 20) "two-sided" "main") = false := by
  have hx0 : (eps7 + (big7 - eps7) * ((0 : ℕ) : ℚ) / (((100 : ℕ) : ℚ) - 1))
      ∈ linspace eps7 big7 100 :=
    List.mem_map.mpr ⟨0, List.mem_range.mpr (by norm_num), rfl⟩
  have hx99 : (eps7 + (big7 - eps7) * ((99 : ℕ) : ℚ) / (((100 : ℕ) : ℚ) - 1))
      ∈ linspace eps7 big7 100 :=
    List.mem_map.mpr ⟨99, List.mem_range.mpr (by norm_num), rfl⟩
  have hneg : ∃ v ∈ (linspace eps7 big7 100).map
      (mrt2armGetF deX 20 10 1 1 (1 / 20) (4 / 5) "two-sided"), v < 0 :=
    ⟨_, List.mem_map.mpr ⟨_, hx0, rfl⟩, by
      norm_num [mrt2armGetF, deX, eps7, big7]⟩
  have hpos : ∃ v ∈ (linspace eps7 big7 100).map
      (mrt2armGetF deX 20 10 1 1 (1 / 20) (4 / 5) "two-sided"), 0 < v :=
    ⟨_, List.mem_map.mpr ⟨_, hx99, rfl⟩, by
      norm_num [mrt2armGetF, deX, eps7, big7]⟩
  have hok := isErr_nuniroot_eq_false_of_sign_change bzW
    (mrt2armGetF deX 20 10 1 1 (1 / 20) (4 / 5) "two-sided") eps7 big7 100 hneg hpos
  have hcm : casefold "main" = "main" := rfl
  have hct : casefold "two-sided" = "two-sided" := rfl
  simp only [wpMrt2armTest, mrt2armPwrTest, hcm, hct]
  simp only [if_true, isErr_map]
  exact hok

/-- Claim C2 (amended): the entry points with omitted-role validation —
formalised for the three cited by the claim (`wp_anova_test`,
`wp_t1_test`, `wp_poisson_test`) — raise before any numerical work
whenever the number of omitted solvable roles differs from one (zero
omitted or more than one omitted), so their computation proceeds only
with exactly one omission.  `wp_mrt2arm_test` is the exception: it
performs no such validation (see
`mrt2arm_zero_omitted_roles_computes`). -/
theorem entry_exactly_one_unknown :
    (∀ (de : DistEval) (bz bq : RootFinder) (k n f alpha power : Option ℚ) (tt : String),
      ([k, n, f, alpha, power].filter Option.isNone).length ≠ 1 →
      isErr (wpAnovaTest de bz bq k n f alpha power tt) = true) ∧
    (∀ (de : DistEval) (bq : RootFinder) (n d alpha power : Option ℚ) (tt alt : String),
      ([n, d, alpha, power].filter Option.isNone).length ≠ 1 →
      isErr (wpT1Test de bq n d alpha power tt alt) = true) ∧
    (∀ (ρ : Type)
       (run : Option ℚ → ℚ → ℚ → Option ℚ → Option ℚ → String → String → Except String ρ)
       (n : Option ℚ) (exp0 exp1 : ℚ) (alpha power : Option ℚ) (alt fam : String),
      ([n, alpha, power].filter Option.isNone).length ≠ 1 →
      isErr (wpPoissonTest run n exp0 exp1 alpha power alt fam) = true) := by
  refine ⟨?_, ?_, ?_⟩
  · intro de bz bq k n f alpha power tt hcnt
    rcases k with _ | kv <;> rcases n with _ | nv <;> rcases f with _ | fv <;>
      rcases alpha with _ | av <;> rcases power with _ | pv <;>
      simp_all [wpAnovaTest]
  · intro de bq n d alpha power tt alt hcnt
    rcases n with _ | nv <;> rcases d with _ | dv <;>
      rcases alpha with _ | av <;> rcases power with _ | pv <;>
      simp_all [wpT1Test]
  · intro ρ run n exp0 exp1 alpha power alt fam hcnt
    rcases n with _ | nv <;> rcases alpha with _ | av <;> rcases power with _ | pv <;>
      simp_all [wpPoissonTest]

/-- Closed instances of `entry_exactly_one_unknown`: zero omitted roles
for `wp_anova_test`, two for `wp_t1_test`, three for
`wp_poisson_test`. -/
theorem entry_exactly_one_unknown_witness :
    isErr (wpAnovaTest deW bzW bqW (some 4) (some 100) (some 1) (some (1 / 20))
      (some (1 / 2)) "overall") = true ∧
    isErr (wpT1Test deW bqW none none (some (1 / 20)) (some (1 / 2))
      "two-sample" "two-sided") = true ∧
    isErr (wpPoissonTest (fun _ _ _ _ _ _ _ => Except.ok (0 : ℚ)) none 1 (1 / 2)
      none none "two-sided" "bernoulli") = true :=
  ⟨entry_exactly_one_unknown.1 deW bzW bqW _ _ _ _ _ "overall" (by simp),
   entry_exactly_one_unknown.2.1 deW bqW _ _ _ _ "two-sample" "two-sided" (by simp),
   entry_exactly_one_unknown.2.2 ℚ _ _ _ _ _ _ "two-sided" "bernoulli" (by simp)⟩

/-- Counterexample to claim C7 as stated: the entry points compare with
`alpha < 0 or alpha > 1`, so `alpha` exactly `0` passes validation and
`wp_anova_test` computes a result instead of raising a domain error. -/
theorem alpha_zero_passes_validation :
    isErr (wpAnovaTest deW bzW bqW (some 4) (some 100) (some 1) (some 0) none
      "overall") = false := by rfl

/-- Claim C7 (amended): the entry points raise a domain error for
`alpha` or `power` strictly outside `[0, 1]` and for a count below the
design minimum (`n ≥ 1` and `k ≥ 1` for `wp_anova_test`, `n ≥ 2` for
`wp_t1_test`); the range comparisons are strict, so `alpha`/`power`
exactly `0` or `1` pass the range check (see
`alpha_zero_passes_validation`). -/
theorem entry_domain_checks :
    (∀ (de : DistEval) (bz bq : RootFinder) (k n f alpha power : Option ℚ) (tt : String),
      ((∃ a, alpha = some a ∧ (a < 0 ∨ 1 < a)) ∨
       (∃ p, power = some p ∧ (p < 0 ∨ 1 < p)) ∨
       (∃ v, n = some v ∧ v < 1) ∨
       (∃ v, k = some v ∧ v < 1)) →
      isErr (wpAnovaTest de bz bq k n f alpha power tt) = true) ∧
    (∀ (de : DistEval) (bq : RootFinder) (n d alpha power : Option ℚ) (tt alt : String),
      ((∃ a, alpha = some a ∧ (a < 0 ∨ 1 < a)) ∨
       (∃ p, power = some p ∧ (p < 0 ∨ 1 < p)) ∨
       (∃ v, n = some v ∧ v < 2)) →
      isErr (wpT1Test de bq n d alpha power tt alt) = true) := by
  constructor
  · intro de bz bq k n f alpha power tt h
    simp only [wpAnovaTest]
    split_ifs with h1 h2 h3 h4 h5 h6
    any_goals rfl
    exfalso
    rcases h with ⟨a, rfl, ha⟩ | ⟨p, rfl, hp⟩ | ⟨v, rfl, hv⟩ | ⟨v, rfl, hv⟩
    · simp only [outside01, Bool.or_eq_true, decide_eq_true_eq] at h3
      exact h3 ha
    · simp only [outside01, Bool.or_eq_true, decide_eq_true_eq] at h4
      exact h4 hp
    · simp only [belowMin, decide_eq_true_eq] at h5
      exact h5 hv
    · simp only [belowMin, decide_eq_true_eq] at h6
      exact h6 hv
  · intro de bq n d alpha power tt alt h
    simp only [wpT1Test]
    split_ifs with h1 h2 h3 h4 h5
    any_goals rfl
    all_goals
      exfalso
      rcases h with ⟨a, rfl, ha⟩ | ⟨p, rfl, hp⟩ | ⟨v, rfl, hv⟩
    all_goals
      first
      | (simp only [outside01, Bool.or_eq_true, decide_eq_true_eq] at h4; exact h4 ha)
      | (simp only [outside01, Bool.or_eq_true, decide_eq_true_eq] at h5; exact h5 hp)
      | (simp only [belowMin, decide_eq_true_eq] at h3; exact h3 hv)

/-- Closed instance of `entry_domain_checks`: `alpha = 2` is rejected by
`wp_anova_test`. -/
theorem entry_domain_checks_witness :
    isErr (wpAnovaTest deW bzW bqW (some 4) (some 100) (some 1) (some 2) none
      "overall") = true :=
  entry_domain_checks.1 deW bzW bqW (some 4) (some 100) (some 1) (some 2) none "overall"
    (Or.inl ⟨2, rfl, Or.inr (by norm_num)⟩)

/-- Counterexample to claim C8 as stated: `wp_anova_test` performs no
validation of `test_type`, so an unrecognized string (here `"banana"`)
does not raise — the call succeeds, computing under the fall-through
(contrast, `"less"`) formula of `WpAnovaClass._get_power`. -/
theorem anova_unrecognized_test_type_computes :
    isErr (wpAnovaTest deW bzW bqW (some 4) (some 100) (some 1) (some 0) none
      "banana") = false := by rfl

/-- Claim C8 (amended): `wp_t1_test` raises at entry for an unrecognized
`test_type` or `alternative` string, and `wp_rmanova_test` raises at
entry for an unrecognized `test_type`; `wp_anova_test`, however, does
not validate `test_type`, and an unrecognized string is computed under
the final (contrast, `"less"`) branch of `WpAnovaClass._get_power`
instead of raising (see `anova_unrecognized_test_type_computes`). -/
theorem unsupported_variant_checks :
    (∀ (de : DistEval) (bq : RootFinder) (n d alpha power : Option ℚ) (tt alt : String),
      ¬(casefold tt = "two-sample" ∨ casefold tt = "one-sample" ∨ casefold tt = "paired") →
      isErr (wpT1Test de bq n d alpha power tt alt) = true) ∧
    (∀ (de : DistEval) (bq : RootFinder) (n d alpha power : Option ℚ) (tt alt : String),
      ¬(casefold alt = "two-sided" ∨ casefold alt = "greater" ∨ casefold alt = "less") →
      isErr (wpT1Test de bq n d alpha power tt alt) = true) ∧
    (∀ (de : DistEval) (bz bq : RootFinder) (n ng nm f : Option ℚ) (nscor : ℚ)
       (alpha power : Option ℚ) (tt : String),
      ¬(casefold tt = "between" ∨ casefold tt = "within" ∨ casefold tt = "interaction") →
      isErr (wpRmanovaTest de bz bq n ng nm f nscor alpha power tt) = true) ∧
    (∀ (de : DistEval) (bz bq : RootFinder) (kv nv fv av : ℚ) (tt : String),
      ¬(av < 0 ∨ 1 < av) → 1 ≤ nv → 1 ≤ kv →
      ¬(casefold tt = "overall" ∨ casefold tt = "two-sided" ∨
        casefold tt = "greater" ∨ casefold tt = "less") →
      (wpAnovaTest de bz bq (some kv) (some nv) (some fv) (some av) none tt).map
          (fun r => r.power)
        = .ok (some (de.nctCdf (de.tPpf av (nv - kv)) (nv - kv) (de.sqrt nv * fv)))) := by
  refine ⟨?_, ?_, ?_, ?_⟩
  · intro de bq n d alpha power tt alt htt
    simp only [wpT1Test]
    split_ifs
    all_goals first | rfl | simp_all
  · intro de bq n d alpha power tt alt halt
    simp only [wpT1Test]
    split_ifs
    all_goals first | rfl | simp_all
  · intro de bz bq n ng nm f nscor alpha power tt htt
    simp only [wpRmanovaTest]
    split_ifs
    all_goals first | rfl | simp_all
  · intro de bz bq kv nv fv av tt ha hn hk htt
    push_neg at ha htt
    have ho : outside01 (some av) = false := by
      simp only [outside01, Bool.or_eq_false_iff, decide_eq_false_iff_not, not_lt]
      exact ⟨ha.1, ha.2⟩
    have ho2 : outside01 (none : Option ℚ) = false := rfl
    have hbn : belowMin 1 (some nv) = false := by
      simp only [belowMin, decide_eq_false_iff_not, not_lt]
      exact hn
    have hbk : belowMin 1 (some kv) = false := by
      simp only [belowMin, decide_eq_false_iff_not, not_lt]
      exact hk
    simp [wpAnovaTest, ho, ho2, hbn, hbk, anovaPwrTest, anovaGetPower,
      htt.1, htt.2.1, htt.2.2.1, Except.map]

/-- Closed instance of `unsupported_variant_checks`: `wp_t1_test`
rejects the unrecognized `test_type` string `"banana"`. -/
theorem unsupported_variant_checks_witness :
    isErr (wpT1Test deW bqW (some 4) (some 1) (some 0) none "banana" "two-sided") = true :=
  unsupported_variant_checks.1 deW bqW (some 4) (some 1) (some 0) none "banana" "two-sided"
    (by decide)

/-- Claim C10: on every argument list, `WpAnovaCountClass.pwr_test` and
`WpAnovaBinaryClass.pwr_test` agree on the numeric entries `k`, `n`,
`effect_size`, `alpha`, `power` (and on the `note` string, which both
classes set to the same text); only the `method` and `url` metadata
strings of the result record differ. -/
theorem binary_count_same_numbers (de : DistEval) (bz bq : RootFinder)
    (k n V alpha power : Option ℚ) :
    (anovaCountPwrTest de bz bq k n V alpha power).map
        (fun r => (r.k, r.n, r.effectSize, r.alpha, r.power))
      = (anovaBinaryPwrTest de bz bq k n V alpha power).map
        (fun r => (r.k, r.n, r.effectSize, r.alpha, r.power)) ∧
    (anovaCountPwrTest de bz bq k n V alpha power).map (fun r => r.note)
      = (anovaBinaryPwrTest de bz bq k n V alpha power).map (fun r => r.note) ∧
    (anovaCountPwrTest de bz bq k n V alpha power).map (fun r => (r.method, r.url))
      = (anovaBVPwrNums de bz bq k n V alpha power).map
        (fun _ => ("One-way Analogous ANOVA with Count Data",
          "http://psychstat.org/anovacount")) ∧
    (anovaBinaryPwrTest de bz bq k n V alpha power).map (fun r => (r.method, r.url))
      = (anovaBVPwrNums de bz bq k n V alpha power).map
        (fun _ => ("One-way Analogous ANOVA with Binary Data",
          "http://psychstat.org/anovabinary")) := by
  refine ⟨?_, ?_, ?_, ?_⟩ <;>
    cases h : anovaBVPwrNums de bz bq k n V alpha power <;>
      simp [anovaCountPwrTest, anovaBinaryPwrTest, h, Except.map]

end WebPower
